import Mathlib

/-!
# Verification of the retail sales data pipeline

A shallow embedding of the data-preparation, filtering and aggregation core
of `src/app.py` (a pandas/streamlit dashboard), together with proofs of the
specified properties.

Conventions of the embedding:
* a pandas `DataFrame` of transactions is a `List Row` (row order is list order);
* the `Date` column is a calendar date `(year, month, day)` compared
  lexicographically, exactly as Python `datetime.date` comparison behaves;
* `pd.cut(df['Age'], bins, labels, right=False)` (app.py line 32) is
  `cutRightFalse`: left-closed right-open intervals, out-of-range values map
  to `none` (pandas `NaN`);
* `df['Date'].dt.to_period('M').astype(str)` (app.py line 27) renders
  `"YYYY-MM"`; pandas timestamps always have four-digit years (1677..2262),
  which `yearMonth` reproduces digit by digit;
* the boolean filter mask of app.py lines 66-72 is `mask`, and
  `df.loc[mask]` is `List.filter` (order-preserving row selection);
* monetary values are rationals (`Rat`); pandas `mean()` of an empty series
  is `NaN`, embedded as `Option.none`;
* `groupby(...).sum()` sorts group keys ascending (pandas default
  `sort=True`); string keys sort in codepoint-lexicographic order, embedded
  by `strLt`/`strLe`.
-/

/-- A calendar date, as produced by `pd.to_datetime` (app.py line 22). -/
structure Date where
  year : Nat
  month : Nat
  day : Nat
deriving DecidableEq, Repr

/-- Date comparison: lexicographic on (year, month, day), as Python
`datetime.date` ordering used by the mask `df['Date'].dt.date >= ...`. -/
def Date.le (a b : Date) : Prop :=
  a.year < b.year ∨
    (a.year = b.year ∧
      (a.month < b.month ∨ (a.month = b.month ∧ a.day ≤ b.day)))

instance (a b : Date) : Decidable (Date.le a b) := by
  unfold Date.le; infer_instance

/-- One row of `data/retail_sales_dataset.csv` after
`load_and_clean_data`'s type normalisation (app.py lines 17-34): the raw
columns used by the dashboard. `age` is an integer (`Int`, so that
out-of-range ages, including negative ones, are representable);
money columns are exact decimals (`Rat`). -/
structure Row where
  transaction_id : Nat
  date : Date
  customer_id : String
  gender : String
  age : Int
  product_category : String
  quantity : Nat
  price_per_unit : Rat
  total_amount : Rat
deriving DecidableEq, Repr

/-! ## Feature derivation (app.py lines 24-32) -/

/-- The character for a decimal digit. -/
def digitChar (n : Nat) : Char := Char.ofNat (48 + n)

/-- Embeds `df['Date'].dt.to_period('M').astype(str)` (app.py line 27): the
`"YYYY-MM"` year-month bucket string, year zero-padded to four digits and
month to two, exactly as pandas prints a monthly `Period` for the
representable timestamp range. -/
def yearMonth (d : Date) : String :=
  String.mk [digitChar (d.year / 1000), digitChar (d.year / 100 % 10),
             digitChar (d.year / 10 % 10), digitChar (d.year % 10), '-',
             digitChar (d.month / 10), digitChar (d.month % 10)]

/-- Embeds `pd.cut(x, bins, labels, right=False)` for a single value (app.py
line 32): successive left-closed right-open intervals `[lo, hi)` drawn from
consecutive bin edges, each labelled by the matching label; a value falling
in no interval gets `none` (pandas `NaN`). -/
def cutRightFalse : List Int → List String → Int → Option String
  | lo :: hi :: bs, lab :: labs, x =>
      if lo ≤ x ∧ x < hi then some lab else cutRightFalse (hi :: bs) labs x
  | _, _, _ => none

/-- The bin edges `bins = [0, 25, 35, 45, 55, 100]` (app.py line 30). -/
def bins : List Int := [0, 25, 35, 45, 55, 100]

/-- The bin labels `['18-24', '25-34', '35-44', '45-54', '55+']` (app.py line 31). -/
def labels : List String := ["18-24", "25-34", "35-44", "45-54", "55+"]

/-- Embeds `df['Age Group'] = pd.cut(df['Age'], bins=bins, labels=labels,
right=False)` (app.py line 32), per row. -/
def ageGroup (age : Int) : Option String := cutRightFalse bins labels age

/-! ## Filter engine (app.py lines 66-72) -/

/-- The boolean filter mask of app.py lines 66-71, applied to one row:
`(Date >= date_range[0]) & (Date <= date_range[1]) &
(Product Category isin categories) & (Gender isin genders)`. -/
def mask (date_from date_to : Date) (categories genders : List String)
    (r : Row) : Bool :=
  decide (Date.le date_from r.date) && decide (Date.le r.date date_to) &&
    categories.contains r.product_category && genders.contains r.gender

/-- Embeds `df_filtered = df.loc[mask]` (app.py line 72): the rows where the mask
holds, in their original order. -/
def df_filtered (df : List Row) (date_from date_to : Date)
    (categories genders : List String) : List Row :=
  df.filter (mask date_from date_to categories genders)

/-! ## Aggregator (app.py lines 83-86, 94, 105) -/

/-- Embeds `df_filtered['Total Amount'].sum()` (app.py line 83). -/
def total_revenue (df : List Row) : Rat :=
  (df.map (·.total_amount)).sum

/-- Embeds `len(df_filtered)` (app.py line 84). -/
def transaction_count (df : List Row) : Nat := df.length

/-- Embeds `df_filtered['Total Amount'].mean()` (app.py line 85); pandas yields
`NaN` on an empty series, embedded as `none`. -/
def average_transaction_value (df : List Row) : Option Rat :=
  if df.isEmpty then none
  else some (total_revenue df / (df.length : Rat))

/-- Embeds `df_filtered['Age'].mean()` (app.py line 86); `NaN` on empty input,
embedded as `none`. -/
def average_age (df : List Row) : Option Rat :=
  if df.isEmpty then none
  else some ((df.map (fun r => (r.age : Rat))).sum / (df.length : Rat))

/-! Codepoint-lexicographic string comparison, as Python compares the
`Year_Month` strings when pandas sorts group keys. -/

/-- Lexicographic strict order on character lists (by codepoint). -/
def charListLt : List Char → List Char → Bool
  | [], [] => false
  | [], _ :: _ => true
  | _ :: _, [] => false
  | a :: as, b :: bs =>
      if a < b then true else if b < a then false else charListLt as bs

/-- Lexicographic strict order on strings (by codepoint), Python's `<`. -/
def strLt (s t : String) : Bool := charListLt s.data t.data

/-- Lexicographic order on strings, Python's `<=`. -/
def strLe (s t : String) : Bool := !(strLt t s)

/-- Embeds `trend_data = df_filtered.groupby('Year_Month')['Total Amount'].sum()`
(app.py line 94): one entry per distinct `Year_Month` value present, keys
sorted ascending (pandas `groupby` default `sort=True`), each paired with
the sum of `Total Amount` over its rows. -/
def monthly_revenue_series (df : List Row) : List (String × Rat) :=
  (((df.map (fun r => yearMonth r.date)).dedup).mergeSort strLe).map
    (fun k => (k, total_revenue (df.filter (fun r => yearMonth r.date == k))))

/-- The grouped sums behind
`sns.barplot(data=df_filtered, x='Age Group', y='Total Amount',
estimator=sum)` (app.py line 105): for each age-group label in the fixed
categorical order, the sum of `Total Amount` over the rows carrying that
label; rows with a missing (`NaN`) age group are dropped, and labels with
no rows produce no bar (no entry), not a zero. -/
def revenue_by_age_group (df : List Row) : List (String × Rat) :=
  labels.filterMap (fun g =>
    let rows := df.filter (fun r => ageGroup r.age == some g)
    if rows.isEmpty then none else some (g, total_revenue rows))

/-! ## Order-theoretic facts about the string comparison -/

lemma charListLt_nil_right (l : List Char) : charListLt l [] = false := by
  cases l <;> rfl

lemma charListLt_cons_iff {a b : Char} {as bs : List Char} :
    charListLt (a :: as) (b :: bs) = true ↔
      a < b ∨ (a = b ∧ charListLt as bs = true) := by
  simp only [charListLt]
  split_ifs with h h'
  · simp [h]
  · simp only [false_iff]
    rintro (h'' | ⟨rfl, _⟩)
    · exact lt_asymm h' h''
    · exact lt_irrefl _ h'
  · have : a = b := le_antisymm (not_lt.mp h') (not_lt.mp h)
    simp [this, lt_irrefl]

lemma charListLt_irrefl (l : List Char) : charListLt l l = false := by
  induction l with
  | nil => rfl
  | cons a as ih => simp [charListLt, lt_irrefl, ih]

lemma charListLt_trans : ∀ {l1 l2 l3 : List Char},
    charListLt l1 l2 = true → charListLt l2 l3 = true → charListLt l1 l3 = true
  | _, [], _, h1, _ => by rw [charListLt_nil_right] at h1; simp at h1
  | _, _ :: _, [], _, h2 => by rw [charListLt_nil_right] at h2; simp at h2
  | [], _ :: _, _ :: _, _, _ => rfl
  | a :: as, b :: bs, c :: cs, h1, h2 => by
      rw [charListLt_cons_iff] at h1 h2 ⊢
      rcases h1 with h1 | ⟨rfl, h1⟩
      · rcases h2 with h2 | ⟨rfl, h2⟩
        · exact Or.inl (lt_trans h1 h2)
        · exact Or.inl h1
      · rcases h2 with h2 | ⟨rfl, h2⟩
        · exact Or.inl h2
        · exact Or.inr ⟨rfl, charListLt_trans h1 h2⟩

lemma charListLt_connex : ∀ {l1 l2 : List Char},
    charListLt l1 l2 = false → charListLt l2 l1 = false → l1 = l2
  | [], [], _, _ => rfl
  | [], _ :: _, h1, _ => by simp [charListLt] at h1
  | _ :: _, [], _, h2 => by simp [charListLt] at h2
  | a :: as, b :: bs, h1, h2 => by
      rw [← Bool.not_eq_true, charListLt_cons_iff] at h1 h2
      push_neg at h1 h2
      have heq : a = b := le_antisymm h2.1 h1.1
      subst heq
      have e1 : charListLt as bs = false := by
        simpa using h1.2 rfl
      have e2 : charListLt bs as = false := by
        simpa using h2.2 rfl
      rw [charListLt_connex e1 e2]

lemma string_data_inj {s t : String} (h : s.data = t.data) : s = t := by
  cases s; cases t; cases h; rfl

lemma strLt_asymm {s t : String} (h : strLt s t = true) : strLt t s = false := by
  by_contra h'
  rw [Bool.not_eq_false] at h'
  have := @charListLt_trans s.data t.data s.data h h'
  rw [charListLt_irrefl] at this
  simp at this

lemma strLt_connex {s t : String} (h1 : strLt s t = false)
    (h2 : strLt t s = false) : s = t :=
  string_data_inj (charListLt_connex h1 h2)

lemma strLt_trans {a b c : String} (h1 : strLt a b = true)
    (h2 : strLt b c = true) : strLt a c = true := by
  unfold strLt at h1 h2 ⊢
  exact charListLt_trans h1 h2

lemma strLe_trans {a b c : String} (h1 : strLe a b = true)
    (h2 : strLe b c = true) : strLe a c = true := by
  unfold strLe at h1 h2 ⊢
  rw [Bool.not_eq_true'] at h1 h2 ⊢
  by_contra hca
  rw [Bool.not_eq_false] at hca
  rcases Bool.eq_false_or_eq_true (strLt b c) with hbc | hbc
  · have : strLt b a = true := strLt_trans hbc hca
    rw [this] at h1
    simp at h1
  · rw [strLt_connex hbc h2] at h1
    rw [hca] at h1
    simp at h1

lemma strLe_total (a b : String) : strLe a b || strLe b a := by
  unfold strLe
  rcases Bool.eq_false_or_eq_true (strLt b a) with h | h
  · rw [h, strLt_asymm h]; rfl
  · rw [h]; rfl

lemma strLt_of_strLe_of_ne {a b : String} (h1 : strLe a b = true)
    (h2 : a ≠ b) : strLt a b = true := by
  unfold strLe at h1
  rw [Bool.not_eq_true'] at h1
  by_contra hab
  rw [Bool.not_eq_true] at hab
  exact h2 (strLt_connex hab h1)

/-! ## Digit rendering and the lexicographic = chronological bridge -/

lemma digitChar_lt_iff {x y : Nat} (hx : x < 10) (hy : y < 10) :
    digitChar x < digitChar y ↔ x < y := by
  interval_cases x <;> interval_cases y <;> decide

lemma digitChar_inj {x y : Nat} (hx : x < 10) (hy : y < 10) :
    digitChar x = digitChar y ↔ x = y := by
  interval_cases x <;> interval_cases y <;> decide

lemma charListLt_same_cons (c : Char) (as bs : List Char) :
    charListLt (c :: as) (c :: bs) = charListLt as bs := by
  simp [charListLt, lt_irrefl]

lemma charListLt_digit_cons_iff (x y : Nat) (hx : x < 10) (hy : y < 10)
    (as bs : List Char) :
    charListLt (digitChar x :: as) (digitChar y :: bs) = true ↔
      x < y ∨ (x = y ∧ charListLt as bs = true) := by
  rw [charListLt_cons_iff, digitChar_lt_iff hx hy, digitChar_inj hx hy]

lemma yearMonth_data (d : Date) :
    (yearMonth d).data
      = [digitChar (d.year / 1000), digitChar (d.year / 100 % 10),
         digitChar (d.year / 10 % 10), digitChar (d.year % 10), '-',
         digitChar (d.month / 10), digitChar (d.month % 10)] := rfl

/-- For dates in the range pandas can represent (four-digit year, two-digit
month), the `"YYYY-MM"` keys compare lexicographically exactly as the
underlying (year, month) pairs compare chronologically. -/
lemma yearMonth_lt_iff {d1 d2 : Date}
    (h1 : d1.year < 10000) (h2 : d2.year < 10000)
    (hm1 : d1.month < 100) (hm2 : d2.month < 100) :
    strLt (yearMonth d1) (yearMonth d2) = true ↔
      (d1.year < d2.year ∨ (d1.year = d2.year ∧ d1.month < d2.month)) := by
  show charListLt (yearMonth d1).data (yearMonth d2).data = true ↔ _
  rw [yearMonth_data, yearMonth_data,
      charListLt_digit_cons_iff (d1.year / 1000) (d2.year / 1000)
        (by omega) (by omega),
      charListLt_digit_cons_iff (d1.year / 100 % 10) (d2.year / 100 % 10)
        (by omega) (by omega),
      charListLt_digit_cons_iff (d1.year / 10 % 10) (d2.year / 10 % 10)
        (by omega) (by omega),
      charListLt_digit_cons_iff (d1.year % 10) (d2.year % 10)
        (by omega) (by omega),
      charListLt_same_cons,
      charListLt_digit_cons_iff (d1.month / 10) (d2.month / 10)
        (by omega) (by omega),
      charListLt_digit_cons_iff (d1.month % 10) (d2.month % 10)
        (by omega) (by omega),
      show charListLt ([] : List Char) [] = false from rfl]
  simp only [Bool.false_eq_true, and_false, or_false]
  omega

/-! ## Transitivity of the date order -/

lemma Date.le_trans {a b c : Date} (h1 : Date.le a b) (h2 : Date.le b c) :
    Date.le a c := by
  unfold Date.le at *
  omega

/-! ## Sample data (the scenario rows of the specification) -/

/-- Scenario row: 2023-01-05, Clothing, Male, age 24, total 100. -/
def row1 : Row :=
  { transaction_id := 1, date := ⟨2023, 1, 5⟩, customer_id := "CUST1",
    gender := "Male", age := 24, product_category := "Clothing",
    quantity := 1, price_per_unit := 100, total_amount := 100 }

/-- Scenario row: 2023-02-10, Electronics, Female, age 30, total 200. -/
def row2 : Row :=
  { transaction_id := 2, date := ⟨2023, 2, 10⟩, customer_id := "CUST2",
    gender := "Female", age := 30, product_category := "Electronics",
    quantity := 2, price_per_unit := 100, total_amount := 200 }

/-! ## Claim theorems -/

/-- C2: the age-group derivation is inclusive-low, exclusive-high on every
bin boundary; in particular age 24 gets `"18-24"` and age 25 gets
`"25-34"`. -/
theorem age_group_boundaries :
    ageGroup 24 = some "18-24" ∧ ageGroup 25 = some "25-34"
    ∧ ageGroup 34 = some "25-34" ∧ ageGroup 35 = some "35-44"
    ∧ ageGroup 44 = some "35-44" ∧ ageGroup 45 = some "45-54"
    ∧ ageGroup 54 = some "45-54" ∧ ageGroup 55 = some "55+" := by
  decide

/-- C3 (counterexample): contrary to the claim that the final bin is closed
at 100 inclusive, a record with age exactly 100 does NOT get age_group
`"55+"`: `pd.cut(..., right=False)` makes every interval right-open, so
age 100 falls outside `[55, 100)` and gets a missing bucket. -/
theorem age_group_100_missing :
    ageGroup 100 ≠ some "55+" ∧ ageGroup 100 = none := by
  decide

/-- C3 (amended): the final age bin is the half-open interval `[55, 100)`;
ages 55..99 get `"55+"`, while age 100, any age above 100 and any negative
age produce the undefined/missing bucket. -/
theorem age_group_final_bin (a : Int) (h : 55 ≤ a ∨ a < 0) :
    ageGroup a = if 55 ≤ a ∧ a < 100 then some "55+" else none := by
  simp only [ageGroup, bins, labels, cutRightFalse]
  split_ifs <;> first | rfl | (exfalso; omega)

/-- C3 (witness): the amended statement at age 100: the hypothesis holds
and the age group is missing. -/
theorem age_group_final_bin_witness :
    (55 ≤ (100 : Int) ∨ (100 : Int) < 0)
    ∧ ageGroup 100
        = if 55 ≤ (100 : Int) ∧ (100 : Int) < 100 then some "55+" else none :=
  ⟨by decide, age_group_final_bin 100 (by decide)⟩

/-- C10: every age in `[0, 18)` falls in the first bin `[0, 25)` and is
silently labelled `"18-24"` rather than getting a missing bucket. -/
theorem age_group_under_18 (a : Int) (h0 : 0 ≤ a) (h18 : a < 18) :
    ageGroup a = some "18-24" := by
  simp only [ageGroup, bins, labels, cutRightFalse]
  rw [if_pos ⟨h0, by omega⟩]

/-- C10 (witness): age 10 satisfies the bounds and is labelled
`"18-24"`. -/
theorem age_group_under_18_witness :
    (0 : Int) ≤ 10 ∧ (10 : Int) < 18 ∧ ageGroup 10 = some "18-24" :=
  ⟨by decide, by decide, age_group_under_18 10 (by decide) (by decide)⟩

/-- The mask is pointwise the decidable form of the specification's
inclusion rule. -/
lemma mask_eq_spec (date_from date_to : Date) (categories genders : List String)
    (r : Row) :
    mask date_from date_to categories genders r
      = decide (Date.le date_from r.date ∧ Date.le r.date date_to ∧
          r.product_category ∈ categories ∧ r.gender ∈ genders) := by
  rw [Bool.eq_iff_iff]
  simp [mask, and_assoc]

/-- C1: the filter returns exactly the records satisfying
`date_from <= date <= date_to` (inclusive on both ends) AND
`category ∈ categories` AND `gender ∈ genders`; the result is an
order-preserving sub-sequence of the input (never reordered), and
membership in the result is characterised record by record. Purity holds
by construction: `df_filtered` is a function of the dataset and the
parameters alone. -/
theorem filter_engine_spec (df : List Row) (date_from date_to : Date)
    (categories genders : List String) :
    df_filtered df date_from date_to categories genders
      = df.filter (fun r =>
          decide (Date.le date_from r.date ∧ Date.le r.date date_to ∧
            r.product_category ∈ categories ∧ r.gender ∈ genders))
    ∧ (df_filtered df date_from date_to categories genders).Sublist df
    ∧ ∀ r : Row,
        r ∈ df_filtered df date_from date_to categories genders ↔
          (r ∈ df ∧ Date.le date_from r.date ∧ Date.le r.date date_to ∧
            r.product_category ∈ categories ∧ r.gender ∈ genders) := by
  refine ⟨?_, List.filter_sublist df, ?_⟩
  · unfold df_filtered
    apply List.filter_congr
    intro r _
    exact mask_eq_spec date_from date_to categories genders r
  · intro r
    unfold df_filtered
    rw [List.mem_filter, mask_eq_spec]
    simp [and_assoc]

/-- C4: an empty `categories` multiselect (or an empty `genders` one) makes
`isin` reject every row, so the filtered frame is empty — no implicit
select-all. -/
theorem filter_empty_selection (df : List Row) (date_from date_to : Date)
    (categories genders : List String) :
    df_filtered df date_from date_to [] genders = []
    ∧ df_filtered df date_from date_to categories [] = [] := by
  constructor <;>
    (rw [df_filtered, List.filter_eq_nil_iff]; intro r _; simp [mask])

/-- C5: when `date_from > date_to` the two date predicates are jointly
unsatisfiable, so the filter returns the empty frame; the computation is
total (the mask is a total boolean function), so no error is raised. -/
theorem filter_inverted_range (df : List Row) (date_from date_to : Date)
    (categories genders : List String) (h : ¬ Date.le date_from date_to) :
    df_filtered df date_from date_to categories genders = [] := by
  rw [df_filtered, List.filter_eq_nil_iff]
  intro r _
  rw [mask_eq_spec]
  simp only [decide_eq_true_eq, not_and]
  intro h1 h2
  exact absurd (Date.le_trans h1 h2) h
/-- C5 (witness): with `date_from = 2023-02-01 > date_to = 2023-01-01` the
hypothesis holds and filtering the scenario rows yields the empty set. -/
theorem filter_inverted_range_witness :
    ¬ Date.le ⟨2023, 2, 1⟩ ⟨2023, 1, 1⟩
    ∧ df_filtered [row1, row2] ⟨2023, 2, 1⟩ ⟨2023, 1, 1⟩
        ["Clothing", "Electronics"] ["Male", "Female"] = [] :=
  ⟨by decide, filter_inverted_range [row1, row2] _ _ _ _ (by decide)⟩

/-- C6: filtering an already-filtered set again with identical parameters
returns it unchanged (`filter` is idempotent). -/
theorem filter_idempotent (df : List Row) (date_from date_to : Date)
    (categories genders : List String) :
    df_filtered (df_filtered df date_from date_to categories genders)
        date_from date_to categories genders
      = df_filtered df date_from date_to categories genders := by
  simp [df_filtered, List.filter_filter]

/-- C7: every aggregation tolerates the empty record set: total revenue is
`0`, the transaction count is `0`, the mean transaction value and mean age
are the undefined sentinel (`none`, pandas `NaN`) — distinct from a true
zero average — and the grouped aggregations are empty. -/
theorem aggregations_on_empty :
    total_revenue [] = 0 ∧ transaction_count [] = 0
    ∧ average_transaction_value [] = none
    ∧ average_transaction_value [] ≠ some 0
    ∧ average_age [] = none
    ∧ monthly_revenue_series [] = []
    ∧ revenue_by_age_group [] = [] := by
  refine ⟨rfl, rfl, rfl, by decide, rfl, ?_, by decide⟩
  simp [monthly_revenue_series]

/-- A value binned by `pd.cut` always carries one of the supplied
labels. -/
lemma cutRightFalse_mem : ∀ {bs : List Int} {ls : List String} {x : Int}
    {g : String}, cutRightFalse bs ls x = some g → g ∈ ls
  | lo :: hi :: bs, lab :: labs, x, g, h => by
      rw [cutRightFalse] at h
      split_ifs at h with hx
      · obtain rfl := Option.some_injective _ h
        exact List.mem_cons_self _ _
      · exact List.mem_cons_of_mem _ (cutRightFalse_mem h)
  | [], _, _, _, h => Option.noConfusion h
  | [_], _, _, _, h => Option.noConfusion h
  | _ :: _ :: _, [], _, _, h => Option.noConfusion h

/-- When a `filterMap` only ever emits a pair keyed by the element it was
applied to, the emitted keys form a sub-sequence of the input list. -/
lemma filterMap_fst_sublist {α β : Type} (f : α → Option (α × β))
    (hf : ∀ a p, f a = some p → p.1 = a) :
    ∀ l : List α, ((l.filterMap f).map Prod.fst).Sublist l
  | [] => by simp
  | a :: l => by
      cases hfa : f a with
      | none =>
          rw [List.filterMap_cons_none hfa]
          exact (filterMap_fst_sublist f hf l).cons a
      | some p =>
          rw [List.filterMap_cons_some hfa, List.map_cons, hf a p hfa]
          exact (filterMap_fst_sublist f hf l).cons₂ a

/-- The age-group keys emitted by the grouped sum form a sub-sequence of
the fixed label list (one slot per label, in label order). -/
lemma revenue_keys_sublist (df : List Row) :
    ((revenue_by_age_group df).map Prod.fst).Sublist labels := by
  rw [revenue_by_age_group]
  refine filterMap_fst_sublist _ ?_ labels
  intro a p h
  dsimp only at h
  split_ifs at h
  obtain rfl := Option.some_injective _ h
  rfl

/-- C9: the revenue-by-age-group result is exactly a grouping of the
record set by age group with per-group sums: every entry is backed by at
least one matching record and carries the sum of `Total Amount` over the
matching records (soundness); every age group with at least one matching
record gets an entry (completeness); each age group appears at most once
(key uniqueness); and an age group with zero matching records contributes
no entry at all (rather than an entry with revenue zero). -/
theorem revenue_by_age_group_spec (df : List Row) :
    (∀ p ∈ revenue_by_age_group df,
        (∃ r ∈ df, ageGroup r.age = some p.1)
        ∧ p.2 = total_revenue
            (df.filter (fun r => ageGroup r.age == some p.1)))
    ∧ (∀ g : String, (∃ r ∈ df, ageGroup r.age = some g) →
        g ∈ (revenue_by_age_group df).map Prod.fst)
    ∧ ((revenue_by_age_group df).map Prod.fst).Nodup
    ∧ ∀ g : String, (∀ r ∈ df, ageGroup r.age ≠ some g) →
        g ∉ (revenue_by_age_group df).map Prod.fst := by
  refine ⟨?_, ?_, ?_, ?_⟩
  · intro p hp
    rw [revenue_by_age_group, List.mem_filterMap] at hp
    obtain ⟨g, -, hg⟩ := hp
    by_cases hemp : (df.filter (fun r => ageGroup r.age == some g)).isEmpty
    · rw [if_pos hemp] at hg
      exact absurd hg (by simp)
    · rw [if_neg hemp] at hg
      obtain rfl := Option.some_injective _ hg
      refine ⟨?_, rfl⟩
      rw [List.isEmpty_iff, ← Ne, ← List.length_pos_iff_ne_nil] at hemp
      obtain ⟨r, hr⟩ := List.exists_mem_of_length_pos hemp
      rw [List.mem_filter] at hr
      exact ⟨r, hr.1, by simpa using hr.2⟩
  · intro g hg
    obtain ⟨r, hr, hag⟩ := hg
    have hrow : r ∈ df.filter (fun r => ageGroup r.age == some g) := by
      rw [List.mem_filter]
      exact ⟨hr, by simp [hag]⟩
    have hemp : ¬ (df.filter (fun r => ageGroup r.age == some g)).isEmpty := by
      rw [List.isEmpty_iff]
      intro hnil
      rw [hnil] at hrow
      exact absurd hrow (List.not_mem_nil r)
    rw [List.mem_map]
    refine ⟨(g, total_revenue (df.filter (fun r => ageGroup r.age == some g))),
      ?_, rfl⟩
    rw [revenue_by_age_group, List.mem_filterMap]
    exact ⟨g, cutRightFalse_mem hag, by simp [hemp]⟩
  · exact (revenue_keys_sublist df).nodup (by decide)
  · intro g hg hmem
    rw [List.mem_map] at hmem
    obtain ⟨p, hp, hfst⟩ := hmem
    rw [revenue_by_age_group, List.mem_filterMap] at hp
    obtain ⟨g', -, hg'⟩ := hp
    by_cases hemp : (df.filter (fun r => ageGroup r.age == some g')).isEmpty
    · rw [if_pos hemp] at hg'
      exact absurd hg' (by simp)
    · rw [if_neg hemp] at hg'
      obtain rfl := Option.some_injective _ hg'
      rw [List.isEmpty_iff, ← Ne, ← List.length_pos_iff_ne_nil] at hemp
      obtain ⟨r, hr⟩ := List.exists_mem_of_length_pos hemp
      rw [List.mem_filter] at hr
      refine hg r hr.1 ?_
      have : ageGroup r.age = some g' := by simpa using hr.2
      rw [this, ← hfst]

/-- C9 (witness): the grouping specification instantiated on the scenario
rows, together with the concrete evaluation: row1 (age 24) and row2
(age 30) produce exactly the entries `("18-24", 100)` and `("25-34", 200)`
in label order — each backed by its record, groups no record matches
absent. -/
theorem revenue_by_age_group_spec_witness :
    ((∀ p ∈ revenue_by_age_group [row1, row2],
        (∃ r ∈ [row1, row2], ageGroup r.age = some p.1)
        ∧ p.2 = total_revenue
            ([row1, row2].filter (fun r => ageGroup r.age == some p.1)))
    ∧ (∀ g : String, (∃ r ∈ [row1, row2], ageGroup r.age = some g) →
        g ∈ (revenue_by_age_group [row1, row2]).map Prod.fst)
    ∧ ((revenue_by_age_group [row1, row2]).map Prod.fst).Nodup
    ∧ ∀ g : String, (∀ r ∈ [row1, row2], ageGroup r.age ≠ some g) →
        g ∉ (revenue_by_age_group [row1, row2]).map Prod.fst)
    ∧ revenue_by_age_group [row1, row2] = [("18-24", 100), ("25-34", 200)] :=
  ⟨revenue_by_age_group_spec [row1, row2], by
    simp [revenue_by_age_group, labels, ageGroup, cutRightFalse, row1, row2,
      total_revenue]⟩

/-- The keys of the monthly revenue series are the sorted deduplicated
year-month values of the input. -/
lemma monthly_series_keys (df : List Row) :
    (monthly_revenue_series df).map Prod.fst
      = ((df.map (fun r => yearMonth r.date)).dedup).mergeSort strLe := by
  simp [monthly_revenue_series, List.map_map, Function.comp_def]

/-- C8: the monthly revenue series has exactly one entry per distinct
`Year_Month` value of the input (as a permutation of the deduplicated key
list), each entry carries the sum of `Total Amount` over its group, the
keys are strictly ascending in codepoint-lexicographic order, and — for
records whose dates pandas can represent (four-digit year, two-digit
month) — that order is simultaneously the chronological order of the
underlying (year, month) pairs. -/
theorem monthly_revenue_series_spec (df : List Row) :
    ((monthly_revenue_series df).map Prod.fst).Perm
        ((df.map (fun r => yearMonth r.date)).dedup)
    ∧ (∀ p ∈ monthly_revenue_series df,
        p.2 = total_revenue
          (df.filter (fun r => yearMonth r.date == p.1)))
    ∧ ((monthly_revenue_series df).map Prod.fst).Pairwise
        (fun a b => strLt a b = true)
    ∧ ((monthly_revenue_series df).map Prod.fst).Pairwise
        (fun a b => ∀ r1 ∈ df, ∀ r2 ∈ df,
          r1.date.year < 10000 → r2.date.year < 10000 →
          r1.date.month < 100 → r2.date.month < 100 →
          yearMonth r1.date = a → yearMonth r2.date = b →
          (r1.date.year < r2.date.year ∨
            (r1.date.year = r2.date.year ∧ r1.date.month < r2.date.month))) := by
  have hperm : ((df.map (fun r => yearMonth r.date)).dedup).mergeSort strLe
      |>.Perm ((df.map (fun r => yearMonth r.date)).dedup) :=
    List.mergeSort_perm _ strLe
  have hsorted :
      (((df.map (fun r => yearMonth r.date)).dedup).mergeSort strLe).Pairwise
        (fun a b => strLe a b = true) :=
    @List.sorted_mergeSort String strLe (fun a b c hab hbc => strLe_trans hab hbc) strLe_total _
  have hnodup :
      (((df.map (fun r => yearMonth r.date)).dedup).mergeSort strLe).Nodup :=
    hperm.symm.nodup (List.nodup_dedup _)
  have hstrict :
      (((df.map (fun r => yearMonth r.date)).dedup).mergeSort strLe).Pairwise
        (fun a b => strLt a b = true) :=
    (hsorted.and hnodup).imp (fun h => strLt_of_strLe_of_ne h.1 h.2)
  refine ⟨?_, ?_, ?_, ?_⟩
  · rw [monthly_series_keys]; exact hperm
  · intro p hp
    rw [monthly_revenue_series, List.mem_map] at hp
    obtain ⟨k, -, rfl⟩ := hp
    rfl
  · rw [monthly_series_keys]; exact hstrict
  · rw [monthly_series_keys]
    refine hstrict.imp ?_
    intro a b hab r1 _ r2 _ hy1 hy2 hm1 hm2 e1 e2
    rw [← e1, ← e2] at hab
    exact (yearMonth_lt_iff hy1 hy2 hm1 hm2).mp hab

/-- C8 (witness): the series specification instantiated on the scenario
rows (2023-01 Clothing 100, 2023-02 Electronics 200). -/
theorem monthly_revenue_series_spec_witness :
    ((monthly_revenue_series [row1, row2]).map Prod.fst).Perm
        (([row1, row2].map (fun r => yearMonth r.date)).dedup)
    ∧ (∀ p ∈ monthly_revenue_series [row1, row2],
        p.2 = total_revenue
          ([row1, row2].filter (fun r => yearMonth r.date == p.1)))
    ∧ ((monthly_revenue_series [row1, row2]).map Prod.fst).Pairwise
        (fun a b => strLt a b = true)
    ∧ ((monthly_revenue_series [row1, row2]).map Prod.fst).Pairwise
        (fun a b => ∀ r1 ∈ [row1, row2], ∀ r2 ∈ [row1, row2],
          r1.date.year < 10000 → r2.date.year < 10000 →
          r1.date.month < 100 → r2.date.month < 100 →
          yearMonth r1.date = a → yearMonth r2.date = b →
          (r1.date.year < r2.date.year ∨
            (r1.date.year = r2.date.year ∧ r1.date.month < r2.date.month))) :=
  monthly_revenue_series_spec [row1, row2]
